import Mathlib

/-!
Verification model of the woltui terminal application
(sources: src/app.rs, src/app/config.rs, src/states.rs).

The interaction state machine, the key handler of run_app, the entry-store
operations and the configuration reader are embedded as pure Lean
functions.  External collaborators (the wake-on-LAN sender, the
persistence layer, the terminal clock) are represented by explicit
outcome parameters and by effect fields of the step output.  Time is
measured in milliseconds of a simulated clock.
-/

namespace Woltui

/-- The states of the `sm!` machine declared in states.rs, as the
`Variant` enumeration the `sm` crate generates: every non-initial state
variant records the event that entered it, exactly as app.rs
pattern-matches on them.  `ExitedByExit` is declared by the
`Exit { Main => Exited }` transition of states.rs. -/
inductive Variant where
  | InitialMain
  | MainByCancel
  | MainByNext
  | NameInputByAdd
  | MacInputByNext
  | ConfirmAddByNext
  | ConfirmDeleteByDelete
  | SendPopBySend
  | ExitedByExit
deriving DecidableEq

/-- The three variants that denote the `Main` state; app.rs handles the
three identically in every key-match arm. -/
def isMain : Variant → Bool
  | .InitialMain => true
  | .MainByCancel => true
  | .MainByNext => true
  | _ => false

/-- One character of the class `[0-9A-Fa-f]` occurring in the
hardware-address regular expression built in `App::new` (app.rs line 46). -/
def isHexDigit (c : Char) : Bool :=
  (decide ('0' ≤ c) && decide (c ≤ '9')) ||
  (decide ('a' ≤ c) && decide (c ≤ 'f')) ||
  (decide ('A' ≤ c) && decide (c ≤ 'F'))

/-- One character of the class `[:-]` of the same regular expression. -/
def isSepChar (c : Char) : Bool :=
  c == ':' || c == '-'

/-- Matcher for the anchored regular expression
`^([0-9A-Fa-f]{2}[:-]){5}([0-9A-Fa-f]{2})$` of `App::new`: `n` repetitions
of a two-hex-digit group followed by one separator, then a final
two-hex-digit group ending the string. -/
def matchPairs : Nat → List Char → Bool
  | 0, [a, b] => isHexDigit a && isHexDigit b
  | n + 1, a :: b :: p :: rest =>
      isHexDigit a && isHexDigit b && isSepChar p && matchPairs n rest
  | _, _ => false

/-- The address-validation predicate of the application: `mac_regex.is_match`
on the whole candidate string (app.rs lines 46 and 166). -/
def is_valid_address (s : String) : Bool :=
  matchPairs 5 s.data

/-- Comparison form of the accepted language, written out from the shape of
the strings themselves: exactly seventeen characters, six two-hex-digit
groups with five separator characters between them, where each of the five
separators is `:` or `-` chosen independently (mixing the two separators
within one string is allowed). -/
def mixed_sep_format (l : List Char) : Bool :=
  match l with
  | [a1, a2, p1, b1, b2, p2, c1, c2, p3, d1, d2, p4, e1, e2, p5, f1, f2] =>
      isHexDigit a1 && isHexDigit a2 && isSepChar p1 &&
      (isHexDigit b1 && isHexDigit b2 && isSepChar p2 &&
       (isHexDigit c1 && isHexDigit c2 && isSepChar p3 &&
        (isHexDigit d1 && isHexDigit d2 && isSepChar p4 &&
         (isHexDigit e1 && isHexDigit e2 && isSepChar p5 &&
          (isHexDigit f1 && isHexDigit f2)))))
  | _ => false

/-- Modelled from the spec: the file src/statefullist.rs is not among the
sources, only its callers in app.rs are.  Per the spec the Entry Store is an
ordered list of (name, address) pairs with an optional highlighted-row
cursor; the `state` field of the Rust struct is a ratatui `ListState` whose
only observable datum here is the selected index. -/
structure StatefulList (α : Type) where
  selected : Option Nat
  items : List α
deriving DecidableEq

/-- Modelled from the spec: `cursor_move Next` advances the cursor by one,
saturating at the end of the sequence (no wraparound); no-op on an empty
sequence.  On a non-empty sequence with no cursor the first row is
selected, keeping the spec's invariant that a non-empty sequence has a
valid cursor. -/
def StatefulList.next {α : Type} (l : StatefulList α) : StatefulList α :=
  if l.items.isEmpty then l
  else
    match l.selected with
    | some i => { l with selected := some (min (i + 1) (l.items.length - 1)) }
    | none => { l with selected := some 0 }

/-- Modelled from the spec: `cursor_move Previous` retreats the cursor by
one, saturating at the start of the sequence; no-op on an empty sequence.
On a non-empty sequence with no cursor the first row is selected. -/
def StatefulList.previous {α : Type} (l : StatefulList α) : StatefulList α :=
  if l.items.isEmpty then l
  else
    match l.selected with
    | some i => { l with selected := some (i - 1) }
    | none => { l with selected := some 0 }

/-- The `App` struct of app.rs.  The compiled `mac_regex` field is the
constant regular expression embedded as `is_valid_address`; the
`textarea` widget is represented by its single line of text.  `popup_time`
is the `Option<Instant>` timestamp, in milliseconds of a simulated clock. -/
structure App where
  state_machine : Variant
  machines : StatefulList (String × String)
  status_message : String
  textarea : String
  editing_name : String
  editing_mac : String
  popup_time : Option Nat
deriving DecidableEq

/-- The key codes app.rs distinguishes: `Enter`, `Esc`, `Up`, `Down`,
printable characters, text-editing keys such as backspace, and every other
key (grouped as `Other`). -/
inductive KeyCode where
  | Enter
  | Esc
  | Up
  | Down
  | Backspace
  | Char (c : Char)
  | Other
deriving DecidableEq

/-- Effect of one `textarea.input(input)` call on the single-line buffer:
a printable character is appended, backspace erases the last character,
and any other key leaves the text unchanged. -/
def editKey (s : String) (k : KeyCode) : String :=
  match k with
  | .Char c => s.push c
  | .Backspace => s.dropRight 1
  | _ => s

/-- Observable outcome of handling one key press inside the loop of
`run_app`: the updated application value; `exit` when the loop returned
`Ok(())`; `aborted` when an `unwrap`/`expect` fired and the process died;
`sent` carries the address given to the single possible `wol::send_wol`
call of the iteration; `saved` carries the item list given to the single
possible `save_machines` persistence call of the iteration. -/
structure StepOut where
  app : App
  exit : Bool
  aborted : Bool
  sent : Option String
  saved : Option (List (String × String))
deriving DecidableEq

/-- A step that neither ends the loop nor calls a collaborator. -/
def noEffect (a : App) : StepOut :=
  ⟨a, false, false, none, none⟩

/-- A step on which the process aborts (a Rust `unwrap`/`expect` panic). -/
def abortOut (a : App) : StepOut :=
  ⟨a, false, true, none, none⟩

/-- Result of `add_machine`/`delete_machine`: the mutated application,
whether the synchronous `save_machines` call succeeded (`Ok(())` versus an
error), and the item list handed to the persistence collaborator. -/
structure MutOut where
  app : App
  ok : Bool
  saved : List (String × String)
deriving DecidableEq

/-- `App::add_machine` (app.rs lines 74-82): pushes the (name, mac) pair
onto the in-memory list, then persists the whole store via
`save_machines`; `saveOk` is the outcome of the persistence write.  The
in-memory push is kept even when the write fails. -/
def add_machine (app : App) (name mac : String) (saveOk : Bool) : MutOut :=
  let items := app.machines.items ++ [(name, mac)]
  ⟨{ app with machines := { app.machines with items := items } }, saveOk, items⟩

/-- `App::delete_machine` (app.rs lines 84-90): `Vec::remove(index)` on the
in-memory list — `none` models the Rust panic when the index is out of
range — then persists the whole store via `save_machines`.  The in-memory
removal is kept even when the write fails. -/
def delete_machine (app : App) (i : Nat) (saveOk : Bool) : Option MutOut :=
  if i < app.machines.items.length then
    let items := app.machines.items.eraseIdx i
    some ⟨{ app with machines := { app.machines with items := items } }, saveOk, items⟩
  else none

/-- One key-press iteration of the match in `run_app` (app.rs lines
144-304), with the state transitions of states.rs inlined.  `now` is the
current simulated clock in milliseconds; `sendOk` is the combined outcome
of `MacAddr::from_str(..).unwrap()` and `wol::send_wol(..).unwrap()` on the
selected address; `saveOk` is the outcome of the persistence write made by
`add_machine`/`delete_machine`. -/
def handleKey (app : App) (k : KeyCode) (now : Nat) (sendOk saveOk : Bool) : StepOut :=
  match app.state_machine, k with
  | .NameInputByAdd, .Enter =>
      noEffect { app with editing_name := app.textarea, textarea := "",
                          state_machine := .MacInputByNext }
  | .NameInputByAdd, .Esc =>
      noEffect { app with textarea := "", state_machine := .MainByCancel }
  | .NameInputByAdd, key =>
      noEffect { app with textarea := editKey app.textarea key }
  | .MacInputByNext, .Enter =>
      let entered := app.textarea
      if is_valid_address entered then
        noEffect { app with editing_mac := entered, textarea := "",
                            state_machine := .ConfirmAddByNext }
      else
        noEffect { app with editing_mac := entered }
  | .MacInputByNext, .Esc =>
      noEffect { app with textarea := "", state_machine := .MainByCancel }
  | .MacInputByNext, key =>
      noEffect { app with textarea := editKey app.textarea key }
  | .InitialMain, .Down | .MainByCancel, .Down | .MainByNext, .Down =>
      noEffect { app with machines := app.machines.next }
  | .InitialMain, .Up | .MainByCancel, .Up | .MainByNext, .Up =>
      noEffect { app with machines := app.machines.previous }
  | .InitialMain, .Enter | .MainByCancel, .Enter | .MainByNext, .Enter =>
      match app.machines.selected with
      | none => noEffect app
      | some i =>
          match app.machines.items.get? i with
          | none => abortOut app
          | some entry =>
              if sendOk then
                ⟨{ app with popup_time := some now, state_machine := .SendPopBySend },
                 false, false, some entry.2, none⟩
              else abortOut app
  | .InitialMain, .Char c | .MainByCancel, .Char c | .MainByNext, .Char c =>
      if c == 'q' then { noEffect app with exit := true }
      else if c == 'a' then
        noEffect { app with state_machine := .NameInputByAdd }
      else if c == 'd' then
        if app.machines.selected.isSome then
          noEffect { app with state_machine := .ConfirmDeleteByDelete }
        else noEffect app
      else noEffect app
  | .ConfirmAddByNext, .Char c =>
      if c == 'Y' then
        let res := add_machine { app with state_machine := .MainByNext }
          app.editing_name app.editing_mac saveOk
        ⟨res.app, false, !res.ok, none, some res.saved⟩
      else if c == 'n' || c == 'N' then
        noEffect { app with state_machine := .MainByCancel }
      else noEffect app
  | .ConfirmAddByNext, .Esc =>
      noEffect { app with state_machine := .MainByCancel }
  | .ConfirmDeleteByDelete, .Char c =>
      if c == 'Y' then
        match app.machines.selected with
        | none => abortOut app
        | some i =>
            let app1 := { app with machines := app.machines.previous,
                                   state_machine := .MainByNext }
            match delete_machine app1 i saveOk with
            | none => abortOut app1
            | some res => ⟨res.app, false, !res.ok, none, some res.saved⟩
      else if c == 'n' || c == 'N' then
        noEffect { app with state_machine := .MainByCancel }
      else noEffect app
  | .ConfirmDeleteByDelete, .Esc =>
      noEffect { app with state_machine := .MainByCancel }
  | _, _ => noEffect app

/-- `App::on_tick` (app.rs lines 118-127): only in the `SendPop` state with
an armed popup timestamp, and only when strictly more than one second has
elapsed, the timestamp is cleared and the `Next` transition back to `Main`
is taken. -/
def on_tick (app : App) (now : Nat) : App :=
  match app.state_machine, app.popup_time with
  | .SendPopBySend, some t =>
      if 1000 < now - t then
        { app with popup_time := none, state_machine := .MainByNext }
      else app
  | _, _ => app

/-- The application state after one key press (collaborators succeeding,
clock at 0). -/
def stepApp (a : App) (k : KeyCode) : App :=
  (handleKey a k 0 true true).app

/-- Press a sequence of keys and return the step output of the last press
(collaborators succeeding, clock at 0); none of the presses used with this
function exits or aborts the loop. -/
def runKeysOut (a : App) : List KeyCode → StepOut
  | [] => noEffect a
  | [k] => handleKey a k 0 true true
  | k :: ks => runKeysOut (stepApp a k) ks

/-- The key presses of the full add flow: request an add, type the name
desk, commit, type the address AA:BB:CC:DD:EE:FF, commit, confirm. -/
def addFlowKeys : List KeyCode :=
  [.Char 'a', .Char 'd', .Char 'e', .Char 's', .Char 'k', .Enter,
   .Char 'A', .Char 'A', .Char ':', .Char 'B', .Char 'B', .Char ':',
   .Char 'C', .Char 'C', .Char ':', .Char 'D', .Char 'D', .Char ':',
   .Char 'E', .Char 'E', .Char ':', .Char 'F', .Char 'F', .Enter, .Char 'Y']

/-- The input-router mapping of the spec (section 4.4): whether a key press
is mapped to a state-machine event, a buffer edit, or a cursor move in the
given state.  Pairs outside this mapping are the no-table-entry events:
the claim is that the handler ignores them completely. -/
def mapsEvent (v : Variant) (k : KeyCode) : Bool :=
  match v, k with
  | .InitialMain, .Up | .MainByCancel, .Up | .MainByNext, .Up => true
  | .InitialMain, .Down | .MainByCancel, .Down | .MainByNext, .Down => true
  | .InitialMain, .Enter | .MainByCancel, .Enter | .MainByNext, .Enter => true
  | .InitialMain, .Char c | .MainByCancel, .Char c | .MainByNext, .Char c =>
      c == 'q' || c == 'a' || c == 'd'
  | .NameInputByAdd, .Enter | .NameInputByAdd, .Esc => true
  | .NameInputByAdd, .Char _ | .NameInputByAdd, .Backspace => true
  | .MacInputByNext, .Enter | .MacInputByNext, .Esc => true
  | .MacInputByNext, .Char _ | .MacInputByNext, .Backspace => true
  | .ConfirmAddByNext, .Esc => true
  | .ConfirmAddByNext, .Char c => c == 'Y' || c == 'n' || c == 'N'
  | .ConfirmDeleteByDelete, .Esc => true
  | .ConfirmDeleteByDelete, .Char c => c == 'Y' || c == 'n' || c == 'N'
  | _, _ => false

/-- Error cases of `read_config` (config.rs): an I/O failure while
creating or reading the file, or a TOML deserialization failure. -/
inductive ConfigError where
  | ioError
  | parseError
deriving DecidableEq

/-- The filesystem state `read_config` observes at the configured path:
whether the file exists, whether creating it would succeed (creation fails
for instance when the parent directory is absent, since `read_config`
never creates directories — only `write_config` does), and the raw
content when the file exists. -/
structure ConfigFS where
  fileExists : Bool
  createOk : Bool
  content : String
deriving DecidableEq

/-- `read_config` (config.rs lines 19-34).  Machines are represented by
(name, mac_address) pairs; `parse` is the TOML deserializer of the external
`toml` crate, returning `none` on a deserialization error.  When the file
is missing, the code creates it empty with `create_new` and returns
`Config::default()` (no machines); a creation failure is returned as an
I/O error. -/
def read_config (fs : ConfigFS) (parse : String → Option (List (String × String))) :
    Except ConfigError (List (String × String) × ConfigFS) :=
  if fs.fileExists then
    match parse fs.content with
    | some ms => .ok (ms, fs)
    | none => .error .parseError
  else if fs.createOk then
    .ok ([], { fs with fileExists := true, content := "" })
  else .error .ioError

end Woltui

/-- Claim C1: the address-validation predicate accepts exactly six
two-hexadecimal-digit groups separated uniformly by `:` or uniformly by `-`,
and rejects any string mixing the two separators; in particular
`aa:bb-cc:dd:ee:ff` is rejected.  Counterexample: the regular expression
`^([0-9A-Fa-f]{2}[:-]){5}([0-9A-Fa-f]{2})$` chooses each separator
independently, so the mixed-separator string is accepted. -/
theorem Woltui.mixed_separator_accepted :
    Woltui.is_valid_address "aa:bb-cc:dd:ee:ff" = true := by decide

/-- Claim C1 (amended): the address-validation predicate accepts exactly the
strings made of six two-hexadecimal-digit groups (case-insensitive) with the
five separators each being `:` or `-` independently — mixed separators are
accepted; wrong group counts and non-hex digits are rejected. -/
theorem Woltui.mac_regex_mixed_format (s : String) :
    Woltui.is_valid_address s = Woltui.mixed_sep_format s.data := by
  rcases s with ⟨l⟩
  show Woltui.matchPairs 5 l = Woltui.mixed_sep_format l
  rcases l with _ | ⟨a1, _ | ⟨a2, _ | ⟨p1, _ | ⟨b1, _ | ⟨b2, _ | ⟨p2, _ | ⟨c1,
    _ | ⟨c2, _ | ⟨p3, _ | ⟨d1, _ | ⟨d2, _ | ⟨p4, _ | ⟨e1, _ | ⟨e2, _ | ⟨p5,
    _ | ⟨f1, _ | ⟨f2, _ | ⟨x, t⟩⟩⟩⟩⟩⟩⟩⟩⟩⟩⟩⟩⟩⟩⟩⟩⟩⟩
  all_goals first
    | rfl
    | simp [Woltui.matchPairs, Woltui.mixed_sep_format, Bool.and_false]

/-- Claim C2: committing `MacInput` with an invalid edit buffer leaves the
state-machine state unchanged, the edit buffer unchanged, and the Pending
Snapshot's address field unmutated.  Counterexample: app.rs line 165
assigns `editing_mac` from the buffer before the validation guard runs, so
the snapshot's address field is overwritten with the rejected content. -/
theorem Woltui.invalid_commit_overwrites_snapshot_mac :
    (Woltui.handleKey
        ⟨.MacInputByNext, ⟨none, []⟩, "", "zz", "", "aa:bb:cc:dd:ee:ff", none⟩
        .Enter 0 true true).app.editing_mac ≠ "aa:bb:cc:dd:ee:ff" := by decide

/-- Claim C2 (amended): committing `MacInput` with an invalid edit buffer
leaves the state-machine state unchanged and keeps the edit buffer for
correction, but overwrites the Pending Snapshot's address field with the
rejected buffer content; all other fields are unchanged and no collaborator
is called. -/
theorem Woltui.invalid_mac_commit_frame (app : Woltui.App) (now : Nat)
    (sendOk saveOk : Bool)
    (hst : app.state_machine = Woltui.Variant.MacInputByNext)
    (hv : Woltui.is_valid_address app.textarea = false) :
    Woltui.handleKey app .Enter now sendOk saveOk =
      Woltui.noEffect { app with editing_mac := app.textarea } := by
  simp [Woltui.handleKey, hst, hv]

/-- Witness for the amended claim C2 at a concrete invalid buffer. -/
theorem Woltui.invalid_mac_commit_frame_witness :
    Woltui.handleKey ⟨.MacInputByNext, ⟨some 0, [("pc", "aa")]⟩, "m", "zz", "n", "old", some 3⟩
        .Enter 9 false false =
      Woltui.noEffect ⟨.MacInputByNext, ⟨some 0, [("pc", "aa")]⟩, "m", "zz", "n", "zz", some 3⟩ :=
  Woltui.invalid_mac_commit_frame
    ⟨.MacInputByNext, ⟨some 0, [("pc", "aa")]⟩, "m", "zz", "n", "old", some 3⟩
    9 false false rfl (by decide)

/-- Claim C3: if the persistence write fails during `add` or `delete_at`,
the in-memory entry sequence is rolled back to its previous value.
Counterexample: `add_machine` pushes the new pair and keeps it in memory
even though `save_machines` failed and the error is propagated. -/
theorem Woltui.add_save_failure_not_rolled_back :
    (Woltui.add_machine ⟨.InitialMain, ⟨some 0, [("a", "b")]⟩, "", "", "", "", none⟩
        "n" "m" false).app.machines.items ≠ [("a", "b")] := by decide

/-- Claim C3 (amended): a failed persistence write during `add` or
`delete_at` is reported to the caller as a failure, but the in-memory
mutation is retained — the appended pair stays appended and the removed
pair stays removed — so the in-memory and persisted representations
diverge. -/
theorem Woltui.save_failure_keeps_memory_mutation (app : Woltui.App)
    (name mac : String) (i : Nat) (h : i < app.machines.items.length) :
    (Woltui.add_machine app name mac false).ok = false ∧
    (Woltui.add_machine app name mac false).app.machines.items
        = app.machines.items ++ [(name, mac)] ∧
    ∃ res : Woltui.MutOut, Woltui.delete_machine app i false = some res ∧
      res.ok = false ∧
      res.app.machines.items = app.machines.items.eraseIdx i := by
  refine ⟨rfl, rfl, ?_⟩
  refine ⟨⟨{ app with machines := { app.machines with
      items := app.machines.items.eraseIdx i } }, false, app.machines.items.eraseIdx i⟩,
    ?_, rfl, rfl⟩
  simp [Woltui.delete_machine, h]

/-- Witness for the amended claim C3 on a concrete two-entry store. -/
theorem Woltui.save_failure_keeps_memory_mutation_witness :
    (Woltui.add_machine ⟨.InitialMain, ⟨some 1, [("a", "b"), ("c", "d")]⟩, "", "", "", "", none⟩
        "n" "m" false).ok = false ∧
    (Woltui.add_machine ⟨.InitialMain, ⟨some 1, [("a", "b"), ("c", "d")]⟩, "", "", "", "", none⟩
        "n" "m" false).app.machines.items
        = [("a", "b"), ("c", "d")] ++ [("n", "m")] ∧
    ∃ res : Woltui.MutOut,
      Woltui.delete_machine ⟨.InitialMain, ⟨some 1, [("a", "b"), ("c", "d")]⟩, "", "", "", "", none⟩
          1 false = some res ∧
      res.ok = false ∧
      res.app.machines.items = List.eraseIdx [("a", "b"), ("c", "d")] 1 :=
  Woltui.save_failure_keeps_memory_mutation
    ⟨.InitialMain, ⟨some 1, [("a", "b"), ("c", "d")]⟩, "", "", "", "", none⟩
    "n" "m" 1 (by decide)

/-- Claim C4: after a confirmed delete the cursor invariant holds — in
particular, deleting the only entry leaves the store empty with the cursor
unset.  The code instead calls `previous()` before the removal and never
unsets the cursor, so on a single-entry store the cursor stays at index 0
of the now-empty list: a stale index (a later Enter in Main would index
the empty list and abort).  This theorem evaluates the delete flow at the
failing input: state Main, one entry, cursor on it, keys d then Y. -/
theorem Woltui.delete_sole_entry_stale_cursor :
    (Woltui.runKeysOut
        ⟨.InitialMain, ⟨some 0, [("pc", "aa:bb:cc:dd:ee:ff")]⟩, "", "", "", "", none⟩
        [.Char 'd', .Char 'Y']).app.machines.items = [] ∧
    (Woltui.runKeysOut
        ⟨.InitialMain, ⟨some 0, [("pc", "aa:bb:cc:dd:ee:ff")]⟩, "", "", "", "", none⟩
        [.Char 'd', .Char 'Y']).app.machines.selected = some 0 := by decide

/-- Claim C5: the full add flow appends the entry as the last element,
persists it, and the `Confirmed` transition clears the Pending Snapshot.
Counterexample: the Y arm of app.rs (lines 273-277) commits the snapshot
but never resets `editing_name`/`editing_mac`, so after the flow the
snapshot still holds both values instead of being cleared. -/
theorem Woltui.confirmed_add_retains_snapshot :
    (Woltui.runKeysOut ⟨.InitialMain, ⟨none, []⟩, "", "", "", "", none⟩
        Woltui.addFlowKeys).app.editing_name = "desk" ∧
    (Woltui.runKeysOut ⟨.InitialMain, ⟨none, []⟩, "", "", "", "", none⟩
        Woltui.addFlowKeys).app.editing_mac = "AA:BB:CC:DD:EE:FF" := by decide

/-- Claim C5 (amended): from any `Main` state with an empty edit buffer,
the event sequence AddRequested, type desk, Committed, type
AA:BB:CC:DD:EE:FF, Committed, Confirmed ends in `Main` with the entry
(desk, AA:BB:CC:DD:EE:FF) appended as the last element of the store and
that list handed to the persistence collaborator; the cursor is untouched,
the loop neither exits nor aborts, and the Pending Snapshot is retained
(not cleared). -/
theorem Woltui.add_flow_appends_and_persists (st : Woltui.Variant)
    (sel : Option Nat) (items : List (String × String))
    (msg name0 mac0 : String) (pt : Option Nat)
    (h : Woltui.isMain st = true) :
    (Woltui.runKeysOut ⟨st, ⟨sel, items⟩, msg, "", name0, mac0, pt⟩
        Woltui.addFlowKeys).app.state_machine = Woltui.Variant.MainByNext ∧
    (Woltui.runKeysOut ⟨st, ⟨sel, items⟩, msg, "", name0, mac0, pt⟩
        Woltui.addFlowKeys).app.machines.items
        = items ++ [("desk", "AA:BB:CC:DD:EE:FF")] ∧
    (Woltui.runKeysOut ⟨st, ⟨sel, items⟩, msg, "", name0, mac0, pt⟩
        Woltui.addFlowKeys).saved
        = some (items ++ [("desk", "AA:BB:CC:DD:EE:FF")]) ∧
    (Woltui.runKeysOut ⟨st, ⟨sel, items⟩, msg, "", name0, mac0, pt⟩
        Woltui.addFlowKeys).app.machines.selected = sel ∧
    (Woltui.runKeysOut ⟨st, ⟨sel, items⟩, msg, "", name0, mac0, pt⟩
        Woltui.addFlowKeys).app.editing_name = "desk" ∧
    (Woltui.runKeysOut ⟨st, ⟨sel, items⟩, msg, "", name0, mac0, pt⟩
        Woltui.addFlowKeys).app.editing_mac = "AA:BB:CC:DD:EE:FF" ∧
    (Woltui.runKeysOut ⟨st, ⟨sel, items⟩, msg, "", name0, mac0, pt⟩
        Woltui.addFlowKeys).exit = false ∧
    (Woltui.runKeysOut ⟨st, ⟨sel, items⟩, msg, "", name0, mac0, pt⟩
        Woltui.addFlowKeys).aborted = false := by
  cases st <;> first
    | exact absurd h (by decide)
    | simp +decide [Woltui.runKeysOut, Woltui.stepApp, Woltui.handleKey,
        Woltui.editKey, Woltui.addFlowKeys, Woltui.add_machine,
        Woltui.noEffect]

/-- Witness for the amended claim C5 on a concrete one-entry store. -/
theorem Woltui.add_flow_appends_and_persists_witness :
    (Woltui.runKeysOut ⟨.MainByCancel, ⟨some 0, [("x", "y")]⟩, "s", "", "n", "m", some 4⟩
        Woltui.addFlowKeys).app.state_machine = Woltui.Variant.MainByNext ∧
    (Woltui.runKeysOut ⟨.MainByCancel, ⟨some 0, [("x", "y")]⟩, "s", "", "n", "m", some 4⟩
        Woltui.addFlowKeys).app.machines.items
        = [("x", "y")] ++ [("desk", "AA:BB:CC:DD:EE:FF")] ∧
    (Woltui.runKeysOut ⟨.MainByCancel, ⟨some 0, [("x", "y")]⟩, "s", "", "n", "m", some 4⟩
        Woltui.addFlowKeys).saved
        = some ([("x", "y")] ++ [("desk", "AA:BB:CC:DD:EE:FF")]) ∧
    (Woltui.runKeysOut ⟨.MainByCancel, ⟨some 0, [("x", "y")]⟩, "s", "", "n", "m", some 4⟩
        Woltui.addFlowKeys).app.machines.selected = some 0 ∧
    (Woltui.runKeysOut ⟨.MainByCancel, ⟨some 0, [("x", "y")]⟩, "s", "", "n", "m", some 4⟩
        Woltui.addFlowKeys).app.editing_name = "desk" ∧
    (Woltui.runKeysOut ⟨.MainByCancel, ⟨some 0, [("x", "y")]⟩, "s", "", "n", "m", some 4⟩
        Woltui.addFlowKeys).app.editing_mac = "AA:BB:CC:DD:EE:FF" ∧
    (Woltui.runKeysOut ⟨.MainByCancel, ⟨some 0, [("x", "y")]⟩, "s", "", "n", "m", some 4⟩
        Woltui.addFlowKeys).exit = false ∧
    (Woltui.runKeysOut ⟨.MainByCancel, ⟨some 0, [("x", "y")]⟩, "s", "", "n", "m", some 4⟩
        Woltui.addFlowKeys).aborted = false :=
  Woltui.add_flow_appends_and_persists .MainByCancel (some 0) [("x", "y")]
    "s" "n" "m" (some 4) (by decide)

/-- Claim C6: `SendRequested` with a selection dispatches one signal call
with the selected address, arms the timer and enters `SendPop`, and once at
least one second has elapsed the machine returns to `Main` with the timer
cleared.  Counterexample: `on_tick` (app.rs line 121) requires the elapsed
time to be strictly greater than one second, so at exactly one second of
elapsed time the machine stays in `SendPop` with the timer still armed. -/
theorem Woltui.sendpop_holds_at_exactly_one_second :
    (Woltui.on_tick
        ⟨.SendPopBySend, ⟨some 0, [("pc", "aa:bb:cc:dd:ee:ff")]⟩, "", "", "", "", some 0⟩
        1000).state_machine = Woltui.Variant.SendPopBySend ∧
    (Woltui.on_tick
        ⟨.SendPopBySend, ⟨some 0, [("pc", "aa:bb:cc:dd:ee:ff")]⟩, "", "", "", "", some 0⟩
        1000).popup_time = some 0 := by decide

/-- Claim C6 (amended): in `Main` with a selected cursor on a valid row,
Enter dispatches exactly one signal call carrying the selected entry's
address, arms the timer with the current instant and enters `SendPop`;
once strictly more than one second has elapsed since arming, a tick moves
the machine back to `Main` with the timer cleared; Enter without a
selection is a no-op. -/
theorem Woltui.send_flow_and_timer (app : Woltui.App) (i : Nat)
    (entry : String × String) (now : Nat)
    (hMain : Woltui.isMain app.state_machine = true)
    (hsel : app.machines.selected = some i)
    (hitem : app.machines.items[i]? = some entry) :
    Woltui.handleKey app .Enter now true true =
      ⟨{ app with popup_time := some now, state_machine := .SendPopBySend },
       false, false, some entry.2, none⟩ ∧
    (∀ (b : Woltui.App) (t later : Nat), b.state_machine = .SendPopBySend →
      b.popup_time = some t → 1000 < later - t →
      Woltui.on_tick b later =
        { b with popup_time := none, state_machine := .MainByNext }) ∧
    (∀ (b : Woltui.App) (now2 : Nat), Woltui.isMain b.state_machine = true →
      b.machines.selected = none →
      Woltui.handleKey b .Enter now2 true true = Woltui.noEffect b) := by
  refine ⟨?_, ?_, ?_⟩
  · cases hst : app.state_machine <;> simp [hst, Woltui.isMain] at hMain <;>
      simp [Woltui.handleKey, hst, hsel, hitem]
  · intro b t later hb1 hb2 h3
    simp [Woltui.on_tick, hb1, hb2, h3]
  · intro b now2 hb1 hb2
    cases hst : b.state_machine <;> simp [hst, Woltui.isMain] at hb1 <;>
      simp [Woltui.handleKey, hst, hb2, Woltui.noEffect]

/-- Witness for the amended claim C6 at a concrete store and clock. -/
theorem Woltui.send_flow_and_timer_witness :
    Woltui.handleKey ⟨.MainByNext, ⟨some 1, [("a", "b"), ("pc", "cc:cc:cc:cc:cc:cc")]⟩,
        "", "", "", "", none⟩ .Enter 42 true true =
      ⟨⟨.SendPopBySend, ⟨some 1, [("a", "b"), ("pc", "cc:cc:cc:cc:cc:cc")]⟩,
        "", "", "", "", some 42⟩, false, false, some "cc:cc:cc:cc:cc:cc", none⟩ ∧
    Woltui.on_tick ⟨.SendPopBySend, ⟨some 1, [("a", "b"), ("pc", "cc:cc:cc:cc:cc:cc")]⟩,
        "", "", "", "", some 42⟩ 1543 =
      ⟨.MainByNext, ⟨some 1, [("a", "b"), ("pc", "cc:cc:cc:cc:cc:cc")]⟩,
        "", "", "", "", none⟩ ∧
    Woltui.handleKey ⟨.InitialMain, ⟨none, []⟩, "", "", "", "", none⟩ .Enter 7 true true =
      Woltui.noEffect ⟨.InitialMain, ⟨none, []⟩, "", "", "", "", none⟩ := by
  have h := Woltui.send_flow_and_timer
    ⟨.MainByNext, ⟨some 1, [("a", "b"), ("pc", "cc:cc:cc:cc:cc:cc")]⟩, "", "", "", "", none⟩
    1 ("pc", "cc:cc:cc:cc:cc:cc") 42 (by decide) rfl (by decide)
  exact ⟨h.1, h.2.1 _ 42 1543 rfl rfl (by decide), h.2.2 _ 7 (by decide) rfl⟩

/-- Claim C7: a failure of the signal dispatch collaborator is reported to
the user via the status message, does not change the state-machine state,
and does not terminate the session.  Counterexample: app.rs line 206
unwraps the `send_wol` result, so a dispatch failure aborts the whole
process, and the status message (still empty) is never written. -/
theorem Woltui.dispatch_failure_aborts_session :
    (Woltui.handleKey
        ⟨.InitialMain, ⟨some 0, [("pc", "aa:bb:cc:dd:ee:ff")]⟩, "", "", "", "", none⟩
        .Enter 0 false true).aborted = true ∧
    (Woltui.handleKey
        ⟨.InitialMain, ⟨some 0, [("pc", "aa:bb:cc:dd:ee:ff")]⟩, "", "", "", "", none⟩
        .Enter 0 false true).app.status_message = "" := by decide

/-- Claim C7 (amended): a failure of the signal dispatch collaborator makes
the process abort (the session terminates through the `unwrap` panic); no
state transition is taken, nothing is persisted, and the status message is
left exactly as it was — the failure is never reported through it. -/
theorem Woltui.dispatch_failure_abort_frame (app : Woltui.App) (i : Nat)
    (entry : String × String) (now : Nat) (saveOk : Bool)
    (hMain : Woltui.isMain app.state_machine = true)
    (hsel : app.machines.selected = some i)
    (hitem : app.machines.items[i]? = some entry) :
    Woltui.handleKey app .Enter now false saveOk = Woltui.abortOut app ∧
    (Woltui.abortOut app).app.status_message = app.status_message ∧
    (Woltui.abortOut app).aborted = true := by
  refine ⟨?_, rfl, rfl⟩
  cases hst : app.state_machine <;> simp [hst, Woltui.isMain] at hMain <;>
    simp [Woltui.handleKey, hst, hsel, hitem]

/-- Witness for the amended claim C7 at a concrete selection. -/
theorem Woltui.dispatch_failure_abort_frame_witness :
    Woltui.handleKey ⟨.MainByCancel, ⟨some 0, [("pc", "aa")]⟩, "st", "", "", "", none⟩
        .Enter 3 false false =
      Woltui.abortOut ⟨.MainByCancel, ⟨some 0, [("pc", "aa")]⟩, "st", "", "", "", none⟩ ∧
    (Woltui.abortOut ⟨.MainByCancel, ⟨some 0, [("pc", "aa")]⟩, "st", "", "", "", none⟩).app.status_message
      = "st" ∧
    (Woltui.abortOut ⟨.MainByCancel, ⟨some 0, [("pc", "aa")]⟩, "st", "", "", "", none⟩).aborted
      = true :=
  Woltui.dispatch_failure_abort_frame
    ⟨.MainByCancel, ⟨some 0, [("pc", "aa")]⟩, "st", "", "", "", none⟩
    0 ("pc", "aa") 3 false (by decide) rfl (by decide)

/-- Claim C8: ExitRequested in Main transitions the machine to the terminal
Exited state and terminates the process.  Counterexample: the q arm of
app.rs (lines 183-185) returns from the loop directly and never takes the
`Exit` transition of states.rs, so the machine is still in its Main variant
when the loop ends — the declared `Exited` state is never entered. -/
theorem Woltui.quit_leaves_machine_in_main :
    (Woltui.handleKey ⟨.InitialMain, ⟨none, []⟩, "", "", "", "", none⟩
        (.Char 'q') 0 true true).exit = true ∧
    (Woltui.handleKey ⟨.InitialMain, ⟨none, []⟩, "", "", "", "", none⟩
        (.Char 'q') 0 true true).app.state_machine ≠ Woltui.Variant.ExitedByExit := by
  decide

/-- Claim C8 (amended): the q key in Main makes the loop return
successfully without changing the application — in particular without
entering the declared-but-unused `Exited` state — and it is the sole key
press on which the loop returns normally (abnormal ends, the
`unwrap`/`expect` aborts, are tracked separately). -/
theorem Woltui.quit_sole_normal_return (app : Woltui.App) (k : Woltui.KeyCode)
    (now : Nat) (sendOk saveOk : Bool) :
    (Woltui.isMain app.state_machine = true →
      Woltui.handleKey app (.Char 'q') now sendOk saveOk =
        { Woltui.noEffect app with exit := true }) ∧
    ((Woltui.handleKey app k now sendOk saveOk).exit = true ↔
      (k = Woltui.KeyCode.Char 'q' ∧ Woltui.isMain app.state_machine = true)) := by
  constructor
  · intro h
    cases hst : app.state_machine <;> simp [hst, Woltui.isMain] at h <;>
      simp +decide [Woltui.handleKey, hst, Woltui.noEffect]
  · cases hst : app.state_machine <;> cases k <;>
      simp only [Woltui.handleKey, hst, Woltui.add_machine, Woltui.delete_machine] <;>
      (repeat' split) <;>
      simp_all [Woltui.isMain, Woltui.noEffect, Woltui.abortOut]

/-- Witness for the amended claim C8 at a concrete Main state. -/
theorem Woltui.quit_sole_normal_return_witness :
    Woltui.handleKey ⟨.MainByNext, ⟨some 0, [("pc", "aa")]⟩, "", "", "", "", none⟩
        (.Char 'q') 5 false false =
      { Woltui.noEffect ⟨.MainByNext, ⟨some 0, [("pc", "aa")]⟩, "", "", "", "", none⟩
          with exit := true } ∧
    ((Woltui.handleKey ⟨.MainByNext, ⟨some 0, [("pc", "aa")]⟩, "", "", "", "", none⟩
        .Esc 5 false false).exit = true ↔
      (Woltui.KeyCode.Esc = Woltui.KeyCode.Char 'q' ∧
        Woltui.isMain Woltui.Variant.MainByNext = true)) :=
  ⟨(Woltui.quit_sole_normal_return
      ⟨.MainByNext, ⟨some 0, [("pc", "aa")]⟩, "", "", "", "", none⟩
      .Esc 5 false false).1 (by decide),
   (Woltui.quit_sole_normal_return
      ⟨.MainByNext, ⟨some 0, [("pc", "aa")]⟩, "", "", "", "", none⟩
      .Esc 5 false false).2⟩

/-- Claim C9: for every state and every key press with no entry in the
transition table or the input-router mapping (navigation keys inside
dialogs, confirmation keys outside them, unknown keys anywhere), the
handler leaves the state-machine state and every data-model field — entry
sequence, cursor, edit buffer, pending snapshot, timer token — unchanged,
ends nothing and calls no collaborator. -/
theorem Woltui.unmapped_key_frame (app : Woltui.App) (k : Woltui.KeyCode)
    (now : Nat) (sendOk saveOk : Bool)
    (h : Woltui.mapsEvent app.state_machine k = false) :
    Woltui.handleKey app k now sendOk saveOk = Woltui.noEffect app := by
  obtain ⟨sm, ms, msg, ta, en, em, pt⟩ := app
  cases sm <;> cases k <;>
    simp_all [Woltui.mapsEvent, Woltui.handleKey, Woltui.editKey, Woltui.noEffect]

/-- Witness for claim C9: the Enter key while the sent-popup is shown. -/
theorem Woltui.unmapped_key_frame_witness :
    Woltui.handleKey ⟨.SendPopBySend, ⟨some 0, [("pc", "aa")]⟩, "", "", "", "", some 5⟩
        .Enter 7 true true =
      Woltui.noEffect ⟨.SendPopBySend, ⟨some 0, [("pc", "aa")]⟩, "", "", "", "", some 5⟩ :=
  Woltui.unmapped_key_frame
    ⟨.SendPopBySend, ⟨some 0, [("pc", "aa")]⟩, "", "", "", "", some 5⟩
    .Enter 7 true true (by decide)

/-- Claim C10: when the configuration file does not exist at startup,
loading does not fail — read_config creates an empty file and returns the
default configuration.  Counterexample: the `create_new` open can itself
fail (on a true first run the parent directory `~/.wol` does not exist and
read_config never creates directories), and then read_config returns the
error instead of the default configuration. -/
theorem Woltui.read_config_fails_when_create_fails :
    Woltui.read_config ⟨false, false, ""⟩ (fun _ => none) =
      Except.error Woltui.ConfigError.ioError := rfl

/-- Claim C10 (amended): when the configuration file does not exist but
creating it succeeds (the parent directory exists), read_config creates an
empty file at the configured path and returns the default, machine-less
configuration, so the session starts with an empty entry store; when the
creation fails, the error is propagated. -/
theorem Woltui.read_config_missing_file_creates_default (fs : Woltui.ConfigFS)
    (parse : String → Option (List (String × String)))
    (h1 : fs.fileExists = false) (h2 : fs.createOk = true) :
    Woltui.read_config fs parse =
      Except.ok ([], { fs with fileExists := true, content := "" }) := by
  simp [Woltui.read_config, h1, h2]

/-- Witness for the amended claim C10 on a concrete filesystem state. -/
theorem Woltui.read_config_missing_file_creates_default_witness :
    Woltui.read_config ⟨false, true, "x"⟩ (fun _ => none) =
      Except.ok ([], ⟨true, true, ""⟩) :=
  Woltui.read_config_missing_file_creates_default ⟨false, true, "x"⟩
    (fun _ => none) rfl rfl
